import Mathlib

/-!
Shallow embedding of the cursor-git extension's edit-classification engine
(`ChangeDetector`) and commit-orchestration pipeline (`GitManager`).

Timestamps and durations are modelled as `ℤ` (milliseconds), character
counts as `ℕ`.  JavaScript floating-point numbers reached by the WPM
computation are modelled by `JsNum`: a finite rational, the two infinities
(produced by division by zero) and NaN.  Rational arithmetic stands in for
IEEE doubles; every concrete value appearing in the claims is small enough
that rounding plays no role.
-/

namespace CursorGit

/-- JavaScript number as needed by the WPM pipeline: finite value,
`Infinity`, `-Infinity` or `NaN`. -/
inductive JsNum where
  | fin (q : ℚ)
  | posInf
  | negInf
  | nan
deriving DecidableEq

/-- JavaScript division of two finite numbers: a nonzero value divided by
(positive) zero gives a signed infinity, `0 / 0` gives `NaN`. -/
def jsDivQ (a b : ℚ) : JsNum :=
  if b = 0 then
    if a = 0 then JsNum.nan
    else if 0 < a then JsNum.posInf
    else JsNum.negInf
  else JsNum.fin (a / b)

/-- JavaScript subtraction extended to infinities and NaN. -/
def jsSub : JsNum → JsNum → JsNum
  | JsNum.nan, _ => JsNum.nan
  | _, JsNum.nan => JsNum.nan
  | JsNum.fin a, JsNum.fin b => JsNum.fin (a - b)
  | JsNum.fin _, JsNum.posInf => JsNum.negInf
  | JsNum.fin _, JsNum.negInf => JsNum.posInf
  | JsNum.posInf, JsNum.fin _ => JsNum.posInf
  | JsNum.posInf, JsNum.negInf => JsNum.posInf
  | JsNum.posInf, JsNum.posInf => JsNum.nan
  | JsNum.negInf, JsNum.fin _ => JsNum.negInf
  | JsNum.negInf, JsNum.posInf => JsNum.negInf
  | JsNum.negInf, JsNum.negInf => JsNum.nan

/-- JavaScript `Math.abs` extended to infinities and NaN. -/
def jsAbs : JsNum → JsNum
  | JsNum.fin a => JsNum.fin |a|
  | JsNum.nan => JsNum.nan
  | _ => JsNum.posInf

/-- JavaScript comparison `x > t` against a finite threshold:
`Infinity > t` is true, comparisons with `NaN` are false. -/
def jsGtQ : JsNum → ℚ → Bool
  | JsNum.fin a, t => decide (t < a)
  | JsNum.posInf, _ => true
  | JsNum.negInf, _ => false
  | JsNum.nan, _ => false

/-- `calculateWPM(characters, durationMs)` from `ChangeDetector`:
`(characters / 5) / (durationMs / (1000 * 60))`.  With `durationMs = 0`
and a positive character count this is `Infinity` in JavaScript. -/
def calculateWPM (characters : ℕ) (durationMs : ℤ) : JsNum :=
  jsDivQ ((characters : ℚ) / 5) ((durationMs : ℚ) / (1000 * 60))

/-- The configuration keys read by `processChange`, with their defaults
`sessionTimeout = 2000`, `minCharactersForAnalysis = 10`,
`typingSpeedThreshold = 150`. -/
structure Config where
  sessionTimeout : ℤ
  minCharacters : ℕ
  typingSpeedThreshold : ℚ
deriving DecidableEq

def defaultConfig : Config := ⟨2000, 10, 150⟩

/-- The active typing session: `{startTime, characters}`. -/
structure Session where
  startTime : ℤ
  characters : ℕ
deriving DecidableEq

/-- A finalized session pushed into `typingSessions`. -/
structure FinalizedSession where
  timestamp : ℤ
  characters : ℕ
  duration : ℤ
deriving DecidableEq

/-- One `contentChange` of a text-document-change event:
`text` is the inserted text, `rangeLength` the number of deleted
characters. -/
structure ContentChange where
  text : String
  rangeLength : ℕ
deriving DecidableEq

/-- The mutable fields of `ChangeDetector` touched by typing analysis. -/
structure DetectorState where
  typingSessions : List FinalizedSession
  currentSession : Option Session
  isHumanTyping : Bool
  lastUserAction : ℤ
  lastWPM : Option JsNum
  lastTypingMode : Option Bool
deriving DecidableEq

/-- Field initializers of `ChangeDetector`: no history, no active session,
`isHumanTyping = true`, `lastUserAction = 0`, WPM logging state null. -/
def initState : DetectorState := ⟨[], none, true, 0, none, none⟩

/-- `isHumanOnlyAction(change)`: the four sequential checks of the source,
first match wins. -/
def isHumanOnlyAction (change : ContentChange) : Bool :=
  if change.text = "" ∧ 0 < change.rangeLength then true
  else if change.text.length = 0 ∧ change.rangeLength = 1 then true
  else if change.text.length ≤ 2 ∧ change.rangeLength ≤ 2 then true
  else if 50 < change.text.length ∧ change.rangeLength = 0 then true
  else false

/-- `flagHumanAction(action)`: sets `isHumanTyping = true`, records the
action time and nulls the WPM logging state (`lastWPM`,
`lastTypingMode`).  `Date.now()` inside the method is the event's
timestamp `now`.  The `action` string only feeds a log line. -/
def flagHumanAction (now : ℤ) (s : DetectorState) : DetectorState :=
  { s with isHumanTyping := true, lastUserAction := now,
           lastWPM := none, lastTypingMode := none }

/-- `finalizeCurrentSession()`: pushes the active session (with duration
`now - startTime`) onto `typingSessions`, keeps only the last 10 entries
(`shift()` drops the oldest), and clears `currentSession`. -/
def finalizeCurrentSession (now : ℤ) (s : DetectorState) : DetectorState :=
  match s.currentSession with
  | none => s
  | some sess =>
      let hist := s.typingSessions ++ [⟨sess.startTime, sess.characters, now - sess.startTime⟩]
      let hist := if 10 < hist.length then hist.tail else hist
      { s with typingSessions := hist, currentSession := none }

/-- The `lastWPM` logging guard:
`lastWPM === null || Math.abs(wpm - lastWPM) > 0.1`. -/
def wpmLogCondition (lastWPM : Option JsNum) (wpm : JsNum) : Bool :=
  match lastWPM with
  | none => true
  | some old => jsGtQ (jsAbs (jsSub wpm old)) (1 / 10)

/-- `processChange(change, timestamp)`: the per-content-change body of the
typing-speed analyzer.  Human-only actions flag human immediately; a first
change opens a session; a change later than `sessionTimeout` after the
session's start finalizes it and opens a new one; otherwise characters
accumulate and, once `minCharacters` is reached, the cumulative WPM is
compared against `typingSpeedThreshold` to set `isHumanTyping`. -/
def processChange (cfg : Config) (change : ContentChange) (timestamp : ℤ)
    (s : DetectorState) : DetectorState :=
  let textLength := change.text.length
  if isHumanOnlyAction change then
    flagHumanAction timestamp s
  else
    match s.currentSession with
    | none => { s with currentSession := some ⟨timestamp, textLength⟩ }
    | some sess =>
        let timeSinceLastChange := timestamp - sess.startTime
        if cfg.sessionTimeout < timeSinceLastChange then
          let s1 := finalizeCurrentSession timestamp s
          { s1 with currentSession := some ⟨timestamp, textLength⟩ }
        else
          let chars := sess.characters + textLength
          let s1 := { s with currentSession := some ⟨sess.startTime, chars⟩ }
          if cfg.minCharacters ≤ chars then
            let wpm := calculateWPM chars timeSinceLastChange
            let s2 := if wpmLogCondition s1.lastWPM wpm
                      then { s1 with lastWPM := some wpm } else s1
            let newTypingMode := if jsGtQ wpm cfg.typingSpeedThreshold then false else true
            let s3 := if s2.lastTypingMode ≠ some newTypingMode
                      then { s2 with lastTypingMode := some newTypingMode } else s2
            if jsGtQ wpm cfg.typingSpeedThreshold then
              { s3 with isHumanTyping := false }
            else
              { s3 with isHumanTyping := true }
          else
            s1

/-- Processing a sequence of timestamped content changes in arrival
order. -/
def processChanges (cfg : Config) (events : List (ContentChange × ℤ))
    (s : DetectorState) : DetectorState :=
  events.foldl (fun st p => processChange cfg p.1 p.2 st) s

/-! ## GitManager: string helpers

JavaScript string operations are modelled on the character lists underlying
Lean strings; the claims only involve ASCII paths, where code units and
characters coincide. -/

/-- JavaScript `s.includes(sub)`: substring test. -/
def strIncludesAux (pat : List Char) : List Char → Bool
  | [] => pat.isEmpty
  | c :: rest => pat.isPrefixOf (c :: rest) || strIncludesAux pat rest

def strIncludes (s sub : String) : Bool :=
  strIncludesAux sub.data s.data

/-- JavaScript `s.endsWith(pat)`. -/
def strEndsWith (s pat : String) : Bool :=
  pat.data.isSuffixOf s.data

/-- JavaScript `s.startsWith(pat)`. -/
def strStartsWith (s pat : String) : Bool :=
  pat.data.isPrefixOf s.data

/-- JavaScript `s.trim()` (whitespace set approximated by
`Char.isWhitespace`; the claims only exercise empty vs. non-empty). -/
def strTrim (s : String) : String :=
  String.mk (((s.data.dropWhile Char.isWhitespace).reverse.dropWhile Char.isWhitespace).reverse)

/-- The basename of a path: the part after the last `/`. -/
def pathBasename (p : String) : List Char :=
  p.data.foldl (fun acc c => if c = '/' then [] else acc ++ [c]) []

/-- Index of the last `.` in a character list. -/
def lastDotIndex (l : List Char) : Option ℕ :=
  match l.reverse.findIdx? (fun c => c = '.') with
  | none => none
  | some j => some (l.length - 1 - j)

/-- Node's `path.extname`: the substring of the basename from its last `.`;
empty when the basename has no dot, starts with its only dot, or is
`..`. -/
def extname (p : String) : String :=
  let b := pathBasename p
  if b = ['.', '.'] then ""
  else
    match lastDotIndex b with
    | none => ""
    | some 0 => ""
    | some i => String.mk (b.drop i)

/-- JavaScript `[...new Set(l)]`: deduplication keeping first
occurrences in order. -/
def jsSetDedup (l : List String) : List String :=
  l.foldl (fun acc x => if x ∈ acc then acc else acc ++ [x]) []

/-- JavaScript `s.replace(pat, repl)` on string patterns: replaces the
first occurrence only. -/
def replaceFirstAux (pat repl : List Char) : List Char → List Char
  | [] => if pat.isEmpty then repl else []
  | c :: rest =>
      if pat.isPrefixOf (c :: rest) then repl ++ (c :: rest).drop pat.length
      else c :: replaceFirstAux pat repl rest

def replaceFirst (s pat repl : String) : String :=
  String.mk (replaceFirstAux pat.data repl.data s.data)

/-! ## GitManager: exclusion-pattern matching

`filterExcludedFiles` turns each pattern into a regex by
`pattern.replace(/\o{52}/g, '.*').replace(/\?/g, '.')` and calls
`regex.test(file)` (an unanchored search).  After the rewrite the regex
consists of `.*` (from `*`), `.` (from `?`, and from any `.` already in
the pattern, which the source does not escape) and literal characters;
other regex metacharacters are not modelled, the claims use none. -/

inductive RTok where
  | anyStar
  | anyOne
  | lit (c : Char)
deriving DecidableEq

def compileGlob (p : String) : List RTok :=
  p.data.map (fun c =>
    if c = '*' then RTok.anyStar
    else if c = '?' ∨ c = '.' then RTok.anyOne
    else RTok.lit c)

/-- Regex match anchored at the start of `s` (the match may end anywhere).
The fuel argument strictly exceeds the decreasing measure
`ts.length + s.length`, so the `0` case is never reached; fuel keeps the
recursion structural. -/
def rMatchFuel : ℕ → List RTok → List Char → Bool
  | 0, _, _ => false
  | _ + 1, [], _ => true
  | f + 1, RTok.anyStar :: ts, [] => rMatchFuel f ts []
  | f + 1, RTok.anyStar :: ts, c :: s =>
      rMatchFuel f ts (c :: s) || rMatchFuel f (RTok.anyStar :: ts) s
  | _ + 1, RTok.anyOne :: _, [] => false
  | f + 1, RTok.anyOne :: ts, _ :: s => rMatchFuel f ts s
  | _ + 1, RTok.lit _ :: _, [] => false
  | f + 1, RTok.lit c :: ts, d :: s => decide (c = d) && rMatchFuel f ts s

def rMatchHere (ts : List RTok) (s : List Char) : Bool :=
  rMatchFuel (ts.length + s.length + 1) ts s

/-- Unanchored regex search, as JavaScript `regex.test`. -/
def rSearch (ts : List RTok) : List Char → Bool
  | [] => rMatchHere ts []
  | c :: s => rMatchHere ts (c :: s) || rSearch ts s

def globTest (pattern file : String) : Bool :=
  rSearch (compileGlob pattern) file.data

/-- `filterExcludedFiles(files, excludePatterns)`: with no patterns all
files pass; otherwise a file is kept iff no pattern's regex matches it. -/
def filterExcludedFiles (files excludePatterns : List String) : List String :=
  if excludePatterns = [] then files
  else files.filter (fun file => !excludePatterns.any (fun pattern => globTest pattern file))

/-! ## GitManager: message synthesis -/

/-- `analyzeChanges(files)`: commit type and description from the path
list.  The source's `try`/`catch` fallback `{feat, "AI-generated
changes"}` is unreachable here: the body is total.  `filter(ext => ext)`
drops empty strings; `[...new Set(...)]` is `jsSetDedup`. -/
def analyzeChanges (files : List String) : String × String :=
  let extensions := (files.map extname).filter (fun e => e != "")
  let uniqueExtensions := jsSetDedup extensions
  let total := files.length
  let hasNewFiles := files.any (fun f => strIncludes f "(new file)")
  let hasDeletedFiles := files.any (fun f => strIncludes f "(deleted)")
  let hasTestFiles := files.any (fun f =>
    strIncludes f "test" || strIncludes f "spec" || strEndsWith f ".test." || strEndsWith f ".spec.")
  let hasDocFiles := files.any (fun f =>
    strEndsWith f ".md" || strEndsWith f ".txt" || strIncludes f "doc")
  let hasConfigFiles := files.any (fun f =>
    strIncludes f "config" || strEndsWith f ".json" || strEndsWith f ".yml" || strEndsWith f ".yaml")
  let hasStyleFiles := files.any (fun f =>
    strEndsWith f ".css" || strEndsWith f ".scss" || strEndsWith f ".sass" || strEndsWith f ".less")
  let hasBuildFiles := files.any (fun f =>
    strIncludes f "build" || strIncludes f "webpack" || strIncludes f "rollup" || strEndsWith f ".lock")
  let commitType :=
    if hasTestFiles && !hasNewFiles then "test"
    else if hasDocFiles then "docs"
    else if hasStyleFiles then "style"
    else if hasConfigFiles || hasBuildFiles then "chore"
    else if hasDeletedFiles && !hasNewFiles then "refactor"
    else if files.any (fun f => strIncludes f "fix" || strIncludes f "bug") then "fix"
    else "feat"
  let description :=
    if hasNewFiles && hasDeletedFiles then "add and remove files"
    else if hasNewFiles then "add new files"
    else if hasDeletedFiles then "remove files"
    else if uniqueExtensions.length = 1 then "update " ++ uniqueExtensions.headD "" ++ " files"
    else if 1 < uniqueExtensions.length then "update multiple file types"
    else "update files"
  let description := if 1 < total then description ++ " (" ++ toString total ++ " files)" else description
  (commitType, description)

/-- The commit-type regex test on the template:
`template.match(/^(feat|fix|docs|style|refactor|test|chore|build|ci|perf|revert):/)`. -/
def templateHasTypeWord (t : String) : Bool :=
  ["feat:", "fix:", "docs:", "style:", "refactor:", "test:", "chore:",
   "build:", "ci:", "perf:", "revert:"].any (fun p => strStartsWith t p)

/-- `generateHeuristicCommitMessage(files)` with the configured template
(default `feat: \x7bdescription\x7d`). -/
def generateHeuristicCommitMessage (template : String) (files : List String) : String :=
  let analysis := analyzeChanges files
  if !strIncludes template "\x7btype\x7d" && !templateHasTypeWord template then
    analysis.1 ++ ": " ++ analysis.2
  else
    replaceFirst (replaceFirst template "\x7bdescription\x7d" analysis.2) "\x7btype\x7d" analysis.1

/-- Outcome of `vscode.commands.executeCommand('cursor.generateGitCommitMessage')`:
it resolves to a string, resolves to a non-string value, or throws. -/
inductive CursorAIResult where
  | str (s : String)
  | nonStr
  | err (e : String)
deriving DecidableEq

/-- `generateCursorCommitMessage()`: returns the trimmed command result
when it is a string with non-empty trim, otherwise throws; a thrown error
is re-thrown after logging.  (Its preliminary staging step only fires when
nothing is staged, a case its caller `commitChanges` has already
excluded.) -/
def generateCursorCommitMessage (r : CursorAIResult) : Except String String :=
  match r with
  | CursorAIResult.str s =>
      if strTrim s != "" then Except.ok (strTrim s)
      else Except.error "Cursor AI command did not return a message"
  | CursorAIResult.nonStr => Except.error "Cursor AI command did not return a message"
  | CursorAIResult.err e => Except.error e

/-- `generateCommitMessage(files)`: tries the Cursor AI generator when
`useCursorAI` is set, falling back to the heuristic on any failure of
that call. -/
def generateCommitMessage (useCursorAI : Bool) (r : CursorAIResult)
    (template : String) (files : List String) : String :=
  if useCursorAI then
    match generateCursorCommitMessage r with
    | Except.ok m => m
    | Except.error _ => generateHeuristicCommitMessage template files
  else
    generateHeuristicCommitMessage template files

/-! ## GitManager: staging and committing -/

/-- `CommitResult` of the source: `{success, message, error?, hash?}`. -/
structure CommitResult where
  success : Bool
  message : String
  error : Option String
  hash : Option String
deriving DecidableEq

/-- One mutating call to the version-control backend. -/
inductive GitCall where
  | add (files : List String)
  | commit (message : String)
deriving DecidableEq

deriving instance DecidableEq for Except

/-- The environment of one orchestration attempt: the backend's status
answer (`modified`/`created`/`renamed.map(r => r.to)`/`deleted`/`staged`),
the configuration values read, the Cursor AI command's outcome, whether
`git.add` succeeds, and `git.commit`'s outcome (hash or thrown error).
Status reads are modelled as always succeeding; the claims do not involve
a failing `status()`. -/
structure GitCtx where
  modified : List String
  created : List String
  renamedTo : List String
  deleted : List String
  staged : List String
  excludePatterns : List String
  autoStage : Bool
  useCursorAI : Bool
  cursorResult : CursorAIResult
  template : String
  addOk : Bool
  commitOutcome : Except String String
deriving DecidableEq

/-- `getModifiedFiles()`: concatenation of modified, created, renamed
targets and deleted paths. -/
def getModifiedFiles (c : GitCtx) : List String :=
  c.modified ++ c.created ++ c.renamedTo ++ c.deleted

/-- `stageFiles(files)`: returns whether staging succeeded, paired with
the backend calls made.  Empty input, and input fully removed by
exclusion filtering, both succeed without any `add` call; otherwise
`git.add(filteredFiles)` is attempted and a thrown error yields
`false`. -/
def stageFiles (c : GitCtx) (files : List String) : Bool × List GitCall :=
  if files = [] then (true, [])
  else
    let filteredFiles := filterExcludedFiles files c.excludePatterns
    if filteredFiles = [] then (true, [])
    else if c.addOk then (true, [GitCall.add filteredFiles])
    else (false, [GitCall.add filteredFiles])

/-- `commitChanges(customMessage?)`: fails with `No staged changes` when
nothing is staged; otherwise resolves the message
(`customMessage || generateCommitMessage(...)` — an empty custom message
is falsy) and performs `git.commit`, catching a thrown backend error into
a failed result. -/
def commitChanges (c : GitCtx) (customMessage : Option String) : CommitResult × List GitCall :=
  if c.staged = [] then
    (⟨false, "No staged changes to commit", some "No staged changes", none⟩, [])
  else
    let message :=
      match customMessage with
      | some m =>
          if m = "" then generateCommitMessage c.useCursorAI c.cursorResult c.template c.staged
          else m
      | none => generateCommitMessage c.useCursorAI c.cursorResult c.template c.staged
    match c.commitOutcome with
    | Except.ok h => (⟨true, message, none, some h⟩, [GitCall.commit message])
    | Except.error e => (⟨false, "", some e, none⟩, [GitCall.commit message])

/-- `stageAndCommit(customMessage?)`: fails fast when `getModifiedFiles`
is empty; stages when `autoStage` is set, aborting on staging failure;
then commits. -/
def stageAndCommit (c : GitCtx) (customMessage : Option String) : CommitResult × List GitCall :=
  let modifiedFiles := getModifiedFiles c
  if modifiedFiles = [] then
    (⟨false, "No changes to commit", some "No modified files", none⟩, [])
  else if c.autoStage then
    let st := stageFiles c modifiedFiles
    if st.1 = false then
      (⟨false, "", some "Failed to stage files", none⟩, st.2)
    else
      let cr := commitChanges c customMessage
      (cr.1, st.2 ++ cr.2)
  else
    commitChanges c customMessage


/-- A context whose status reports no change at all (something already
staged earlier may still sit in the index). -/
def ctxNoChanges : GitCtx :=
  ⟨[], [], [], [], ["s.ts"], [], true, true, CursorAIResult.err "offline",
   "feat: \x7bdescription\x7d", true, Except.ok "abc123"⟩

/-- A context whose single modified file is removed by the exclusion
patterns, while previously staged content remains in the index. -/
def ctxAllExcluded : GitCtx :=
  ⟨["x.ts"], [], [], [], ["old.ts"], ["x.ts"], true, false, CursorAIResult.nonStr,
   "feat: \x7bdescription\x7d", true, Except.ok "abc123"⟩

/-- A context in which the Cursor AI message command throws. -/
def ctxGenFail : GitCtx :=
  ⟨[], [], [], [], ["a.ts"], [], true, true, CursorAIResult.err "boom",
   "feat: \x7bdescription\x7d", true, Except.ok "def456"⟩

/-! ## Theorems -/

/-- Evaluation of the speed-analysis step: a second 12-character insertion
one millisecond into a 12-character session reaches 24 characters in 1 ms,
a cumulative 288000 WPM, and flips the mode to agent. -/
theorem processChange_speedStep_eval :
    processChange defaultConfig ⟨"helloworld!!", 0⟩ 1 ⟨[], some ⟨0, 12⟩, true, 0, none, none⟩
      = ⟨[], some ⟨0, 24⟩, false, 0, some (JsNum.fin 288000), some false⟩ := by
  have hH : isHumanOnlyAction ⟨"helloworld!!", 0⟩ = false := by decide
  have hlen : ("helloworld!!" : String).length = 12 := by decide
  have hwpm : calculateWPM 24 1 = JsNum.fin 288000 := by
    norm_num [calculateWPM, jsDivQ]
  norm_num [processChange, hH, hlen, hwpm, wpmLogCondition, jsGtQ, defaultConfig]
  all_goals decide

/-- Claim C1 (amended): an edit event classified as an unconditional human
signal sets the mode to Human immediately, records the action time and
resets the WPM logging state, but does not reset the active typing
session: the session's accumulated characters and start time are
retained. -/
theorem humanAction_sets_human_and_keeps_session :
    ∀ (cfg : Config) (change : ContentChange) (t : ℤ) (s : DetectorState),
      isHumanOnlyAction change = true →
      processChange cfg change t s
        = { s with isHumanTyping := true, lastUserAction := t,
                   lastWPM := none, lastTypingMode := none } := by
  intro cfg change t s h
  simp [processChange, h, flagHumanAction]

/-- Claim C1, witness: a single backspace at time 2 into a mid-session
state turns the mode Human and clears the logging state while the session
(24 characters since time 0) survives untouched. -/
theorem humanAction_sets_human_and_keeps_session_witness :
    processChange defaultConfig ⟨"", 1⟩ 2
        ⟨[], some ⟨0, 24⟩, false, 0, some (JsNum.fin 288000), some false⟩
      = ⟨[], some ⟨0, 24⟩, true, 2, none, none⟩ :=
  humanAction_sets_human_and_keeps_session defaultConfig ⟨"", 1⟩ 2
    ⟨[], some ⟨0, 24⟩, false, 0, some (JsNum.fin 288000), some false⟩ (by decide)

/-- Claim C1, counterexample: two rapid 12-character insertions put the
machine in an active high-speed session (mode AgentLikely, 24 accumulated
characters); a single backspace then reverts the mode to Human but leaves
the session's accumulated characters and start time in place instead of
discarding them. -/
theorem humanAction_session_not_reset_cex :
    (processChanges defaultConfig
        [(⟨"helloworld!!", 0⟩, 0), (⟨"helloworld!!", 0⟩, 1)] initState).isHumanTyping
      = false ∧
    processChanges defaultConfig
        [(⟨"helloworld!!", 0⟩, 0), (⟨"helloworld!!", 0⟩, 1), (⟨"", 1⟩, 2)] initState
      = ⟨[], some ⟨0, 24⟩, true, 2, none, none⟩ := by
  have h1 : processChange defaultConfig ⟨"helloworld!!", 0⟩ 0 initState
      = ⟨[], some ⟨0, 12⟩, true, 0, none, none⟩ := by decide
  have h3 : processChange defaultConfig ⟨"", 1⟩ 2
      ⟨[], some ⟨0, 24⟩, false, 0, some (JsNum.fin 288000), some false⟩
      = ⟨[], some ⟨0, 24⟩, true, 2, none, none⟩ := by decide
  constructor
  · show (processChange defaultConfig ⟨"helloworld!!", 0⟩ 1
        (processChange defaultConfig ⟨"helloworld!!", 0⟩ 0 initState)).isHumanTyping = false
    rw [h1, processChange_speedStep_eval]
  · show processChange defaultConfig ⟨"", 1⟩ 2
        (processChange defaultConfig ⟨"helloworld!!", 0⟩ 1
          (processChange defaultConfig ⟨"helloworld!!", 0⟩ 0 initState))
      = ⟨[], some ⟨0, 24⟩, true, 2, none, none⟩
    rw [h1, processChange_speedStep_eval, h3]

/-- Claim C2: the code has no guard for a zero elapsed duration.  Two
content changes carried by one editor event share a timestamp; on the
second one the session's elapsed duration is 0, `calculateWPM` divides by
zero (Infinity), and the mode is set to AgentLikely instead of being left
unchanged. -/
theorem zero_duration_reaches_division_cex :
    calculateWPM 10 0 = JsNum.posInf ∧
    initState.isHumanTyping = true ∧
    (processChanges defaultConfig [(⟨"hello", 0⟩, 0), (⟨"world", 0⟩, 0)]
        initState).isHumanTyping = false := by
  have hwpm : calculateWPM 10 0 = JsNum.posInf := by
    norm_num [calculateWPM, jsDivQ]
  refine ⟨hwpm, rfl, ?_⟩
  have h1 : processChange defaultConfig ⟨"hello", 0⟩ 0 initState
      = ⟨[], some ⟨0, 5⟩, true, 0, none, none⟩ := by decide
  have hH : isHumanOnlyAction ⟨"world", 0⟩ = false := by decide
  have hlen : ("world" : String).length = 5 := by decide
  show (processChange defaultConfig ⟨"world", 0⟩ 0
      (processChange defaultConfig ⟨"hello", 0⟩ 0 initState)).isHumanTyping = false
  rw [h1]
  norm_num [processChange, hH, hlen, hwpm, wpmLogCondition, jsGtQ, defaultConfig]

/-- Claim C3: the mode is initialized to Human, and a processed content
change can flip it to AgentLikely only when the active session, after
accumulating the event's characters, has reached the minimum-character
threshold and the cumulative WPM (characters over time since session
start) exceeds the speed threshold; every other event leaves the mode
unchanged or makes it Human. -/
theorem agent_transition_requires_chars_and_speed :
    initState.isHumanTyping = true ∧
    ∀ (cfg : Config) (change : ContentChange) (t : ℤ) (s : DetectorState),
      s.isHumanTyping = true →
      (processChange cfg change t s).isHumanTyping = false →
      ∃ sess, s.currentSession = some sess ∧
        cfg.minCharacters ≤ sess.characters + change.text.length ∧
        jsGtQ (calculateWPM (sess.characters + change.text.length) (t - sess.startTime))
          cfg.typingSpeedThreshold = true := by
  refine ⟨rfl, ?_⟩
  intro cfg change t s hs h
  cases hH : isHumanOnlyAction change with
  | true => simp [processChange, hH, flagHumanAction] at h
  | false =>
    cases hcs : s.currentSession with
    | none => simp [processChange, hH, hcs, hs] at h
    | some sess =>
      simp only [processChange, hH, hcs, Bool.false_eq_true, if_false] at h
      split at h
      · simp [finalizeCurrentSession, hcs, hs] at h
      · split at h
        · split at h
          · rename_i hm hgt
            exact ⟨sess, rfl, hm, hgt⟩
          · simp at h
        · simp [hs] at h

/-- Claim C3, witness: in a session of 12 characters started at time 0,
a further 12-character insertion at time 1 flips the mode, and the
theorem certifies the two conditions at that input. -/
theorem agent_transition_requires_chars_and_speed_witness :
    ∃ sess,
      (⟨[], some ⟨0, 12⟩, true, 0, none, none⟩ : DetectorState).currentSession = some sess ∧
      defaultConfig.minCharacters ≤ sess.characters + ("helloworld!!" : String).length ∧
      jsGtQ (calculateWPM (sess.characters + ("helloworld!!" : String).length)
          (1 - sess.startTime)) defaultConfig.typingSpeedThreshold = true :=
  agent_transition_requires_chars_and_speed.2 defaultConfig ⟨"helloworld!!", 0⟩ 1
    ⟨[], some ⟨0, 12⟩, true, 0, none, none⟩ rfl
    (by rw [processChange_speedStep_eval])

/-- Claim C4, counterexample: for the plain paths `x.ts`, `y.ts` the
synthesizer does not produce the description `add new files (2 files)`:
new files are recognized only through a literal `(new file)` marker inside
a path, which the backend's plain created paths never carry. -/
theorem analyzeChanges_xts_yts_cex :
    analyzeChanges ["x.ts", "y.ts"] ≠ ("feat", "add new files (2 files)") := by decide

/-- Claim C4 (amended): on `x.ts`, `y.ts` the synthesizer returns type
`feat` with description `update .ts files (2 files)`; the description
`add new files (2 files)` arises only when the paths carry the literal
`(new file)` marker. -/
theorem analyzeChanges_xts_yts :
    analyzeChanges ["x.ts", "y.ts"] = ("feat", "update .ts files (2 files)") ∧
    analyzeChanges ["x.ts (new file)", "y.ts (new file)"]
      = ("feat", "add new files (2 files)") := by decide

/-- Claim C5: when the Cursor AI generator call fails (throws, or yields
no usable string), `generateCommitMessage` returns exactly the heuristic
message, and `commitChanges` behaves exactly as it would with the
external generator disabled — the generator's error is never part of the
outcome handed to the caller. -/
theorem generator_failure_falls_back :
    (∀ (r : CursorAIResult) (template : String) (files : List String) (e : String),
        generateCursorCommitMessage r = Except.error e →
        generateCommitMessage true r template files
          = generateHeuristicCommitMessage template files) ∧
    (∀ (c : GitCtx) (cm : Option String) (e : String),
        generateCursorCommitMessage c.cursorResult = Except.error e →
        commitChanges c cm = commitChanges { c with useCursorAI := false } cm) := by
  constructor
  · intro r template files e h
    simp [generateCommitMessage, h]
  · intro c cm e h
    have hg : ∀ (files : List String),
        generateCommitMessage c.useCursorAI c.cursorResult c.template files
          = generateHeuristicCommitMessage c.template files := by
      intro files
      cases hu : c.useCursorAI <;> simp [generateCommitMessage, h, hu]
    have hg2 : ∀ (files : List String),
        generateCommitMessage false c.cursorResult c.template files
          = generateHeuristicCommitMessage c.template files := by
      intro files
      simp [generateCommitMessage]
    cases cm <;> simp [commitChanges, hg, hg2]

/-- Claim C5, witness: with a throwing generator the message is the
heuristic one and the commit outcome matches the generator-free run. -/
theorem generator_failure_falls_back_witness :
    generateCommitMessage true (CursorAIResult.err "boom") "feat: \x7bdescription\x7d" ["a.ts"]
      = generateHeuristicCommitMessage "feat: \x7bdescription\x7d" ["a.ts"] ∧
    commitChanges ctxGenFail none = commitChanges { ctxGenFail with useCursorAI := false } none :=
  ⟨generator_failure_falls_back.1 (CursorAIResult.err "boom") "feat: \x7bdescription\x7d"
      ["a.ts"] "boom" rfl,
   generator_failure_falls_back.2 ctxGenFail none "boom" rfl⟩

/-- Claim C6: with an empty fresh ChangeSet, `stageAndCommit` fails with
the `No changes to commit` outcome and performs no backend mutation at
all — the call trace is empty, so neither `add` nor `commit` is
invoked. -/
theorem noChanges_fails_fast :
    ∀ (c : GitCtx) (cm : Option String),
      getModifiedFiles c = [] →
      stageAndCommit c cm
        = (⟨false, "No changes to commit", some "No modified files", none⟩, []) := by
  intro c cm h
  simp [stageAndCommit, h]

/-- Claim C6, witness: a context with an empty status change list. -/
theorem noChanges_fails_fast_witness :
    stageAndCommit ctxNoChanges none
      = (⟨false, "No changes to commit", some "No modified files", none⟩, []) :=
  noChanges_fails_fast ctxNoChanges none rfl

/-- Claim C7: an insertion longer than 50 characters with no deletion is
classified as a human-only action, and processing it always leaves the
mode Human, whatever the session state and configuration. -/
theorem bulk_insert_classified_human :
    ∀ (change : ContentChange), 50 < change.text.length → change.rangeLength = 0 →
      isHumanOnlyAction change = true ∧
      ∀ (cfg : Config) (t : ℤ) (s : DetectorState),
        (processChange cfg change t s).isHumanTyping = true := by
  intro change hlen hr
  have h2 : ¬(change.text.length ≤ 2) := by omega
  have hHu : isHumanOnlyAction change = true := by
    simp [isHumanOnlyAction, hr, hlen, h2]
  exact ⟨hHu, fun cfg t s => by simp [processChange, hHu, flagHumanAction]⟩

/-- Claim C7, witness: a 55-character paste into a high-speed agent-mode
session state still comes out Human. -/
theorem bulk_insert_classified_human_witness :
    isHumanOnlyAction ⟨"aaaaaaaaaaaaaaaaaaaaaaaaaaaaaaaaaaaaaaaaaaaaaaaaaaaaaaa", 0⟩ = true ∧
    (processChange defaultConfig ⟨"aaaaaaaaaaaaaaaaaaaaaaaaaaaaaaaaaaaaaaaaaaaaaaaaaaaaaaa", 0⟩ 5
        ⟨[], some ⟨0, 24⟩, false, 0, some (JsNum.fin 288000), some false⟩).isHumanTyping = true :=
  ⟨(bulk_insert_classified_human ⟨"aaaaaaaaaaaaaaaaaaaaaaaaaaaaaaaaaaaaaaaaaaaaaaaaaaaaaaa", 0⟩
      (by decide) rfl).1,
   (bulk_insert_classified_human ⟨"aaaaaaaaaaaaaaaaaaaaaaaaaaaaaaaaaaaaaaaaaaaaaaaaaaaaaaa", 0⟩
      (by decide) rfl).2 defaultConfig 5
      ⟨[], some ⟨0, 24⟩, false, 0, some (JsNum.fin 288000), some false⟩⟩

/-- Claim C8, counterexample: three 4-character insertions at times 0,
1500 and 3000 all have inter-edit gaps of 1500 ms, at most the 2000 ms
timeout, yet the third event finds 3000 ms elapsed since the session's
start, finalizes the session into history and opens a new one — the
events do not stay in a single session. -/
theorem gap_based_session_cex :
    ((1500 : ℤ) - 0 ≤ defaultConfig.sessionTimeout ∧
      (3000 : ℤ) - 1500 ≤ defaultConfig.sessionTimeout) ∧
    (processChanges defaultConfig
        [(⟨"abcd", 0⟩, 0), (⟨"abcd", 0⟩, 1500), (⟨"abcd", 0⟩, 3000)]
        initState).currentSession = some ⟨3000, 4⟩ ∧
    (processChanges defaultConfig
        [(⟨"abcd", 0⟩, 0), (⟨"abcd", 0⟩, 1500), (⟨"abcd", 0⟩, 3000)]
        initState).typingSessions = [⟨0, 8, 3000⟩] := by decide

/-- Claim C8 (amended): the session window is measured from the session's
start, not from the previous edit: a non-human-action event later than
`sessionTimeout` after the session's start finalizes the session and
opens a new one at the event's time, even when every inter-edit gap is
within the timeout, while an event within the window stays in the session
and accumulates its characters. -/
theorem session_window_measured_from_start :
    ∀ (cfg : Config) (change : ContentChange) (t : ℤ) (s : DetectorState) (sess : Session),
      isHumanOnlyAction change = false →
      s.currentSession = some sess →
      (cfg.sessionTimeout < t - sess.startTime →
          (processChange cfg change t s).currentSession = some ⟨t, change.text.length⟩) ∧
      (t - sess.startTime ≤ cfg.sessionTimeout →
          (processChange cfg change t s).currentSession
            = some ⟨sess.startTime, sess.characters + change.text.length⟩) := by
  intro cfg change t s sess hH hcs
  constructor
  · intro ht
    simp [processChange, hH, hcs, ht, finalizeCurrentSession]
  · intro ht
    have hnt : ¬(cfg.sessionTimeout < t - sess.startTime) := not_lt.mpr ht
    simp only [processChange, hH, hcs, Bool.false_eq_true, if_false]
    rw [if_neg hnt]
    split
    · simp [apply_ite DetectorState.currentSession]
    · simp

/-- Claim C8, witness: at time 3000 a session started at 0 with 8
characters rolls over into a fresh 4-character session. -/
theorem session_window_measured_from_start_witness :
    (processChange defaultConfig ⟨"abcd", 0⟩ 3000
        ⟨[], some ⟨0, 8⟩, true, 0, none, none⟩).currentSession = some ⟨3000, 4⟩ :=
  (session_window_measured_from_start defaultConfig ⟨"abcd", 0⟩ 3000
      ⟨[], some ⟨0, 8⟩, true, 0, none, none⟩ ⟨0, 8⟩ (by decide) rfl).1 (by decide)

/-- Claim C9: when exclusion filtering removes every path of a non-empty
ChangeSet, `stageFiles` succeeds without issuing any `add` call, and
`stageAndCommit` carries on to the commit step exactly as if staging were
skipped — committing whatever was staged before. -/
theorem filtered_empty_staging_noop :
    ∀ (c : GitCtx) (cm : Option String),
      c.autoStage = true →
      getModifiedFiles c ≠ [] →
      filterExcludedFiles (getModifiedFiles c) c.excludePatterns = [] →
      stageFiles c (getModifiedFiles c) = (true, []) ∧
      stageAndCommit c cm = commitChanges c cm := by
  intro c cm ha hne hf
  have h1 : stageFiles c (getModifiedFiles c) = (true, []) := by
    simp [stageFiles, hne, hf]
  refine ⟨h1, ?_⟩
  simp [stageAndCommit, hne, ha, h1, Prod.mk.eta]

/-- Claim C9, witness: `x.ts` is the only change and is excluded by the
pattern `x.ts`; staging is a no-op success and the previously staged
`old.ts` is committed. -/
theorem filtered_empty_staging_noop_witness :
    stageFiles ctxAllExcluded (getModifiedFiles ctxAllExcluded) = (true, []) ∧
    stageAndCommit ctxAllExcluded none = commitChanges ctxAllExcluded none :=
  filtered_empty_staging_noop ctxAllExcluded none rfl (by decide) (by decide)

/-- Claim C10: a non-human-action event that opens a session — the first
event observed, or one arriving after the session window has elapsed —
never changes the classification mode, however many characters it
inserts; a speed verdict needs a later event of the same session. -/
theorem session_opening_event_preserves_mode :
    ∀ (cfg : Config) (change : ContentChange) (t : ℤ) (s : DetectorState),
      isHumanOnlyAction change = false →
      (s.currentSession = none ∨
        ∃ sess, s.currentSession = some sess ∧ cfg.sessionTimeout < t - sess.startTime) →
      (processChange cfg change t s).isHumanTyping = s.isHumanTyping := by
  intro cfg change t s hH hopen
  rcases hopen with hcs | ⟨sess, hcs, ht⟩
  · simp [processChange, hH, hcs]
  · simp [processChange, hH, hcs, ht, finalizeCurrentSession]

/-- Claim C10, witness: a first event inserting 12 characters — above the
10-character threshold — still leaves the initial mode untouched. -/
theorem session_opening_event_preserves_mode_witness :
    (processChange defaultConfig ⟨"abcdefghijkl", 0⟩ 0 initState).isHumanTyping
      = initState.isHumanTyping :=
  session_opening_event_preserves_mode defaultConfig ⟨"abcdefghijkl", 0⟩ 0 initState
    (by decide) (Or.inl rfl)

end CursorGit
